import Mathlib

/-!
Verification of the clawde SDK control-protocol engine.

The Go source contains two interleaved drafts of the engine:

* draft A: `query.go` (`Query`), `protocol.go`, `permission.go`, `hooks.go`,
  the `Stream` in part_003 and the client in part_012;
* draft B: `client.go` (`Client`), the `QueryHandler` in part_011, the
  protocol types in part_001, the permission types in part_017, the hook
  types in part_013, the `Stream` in part_004 and `subprocess.go`.

Definitions below are shallow embeddings of the corresponding Go
functions.  JSON values are modelled by the `Json` inductive; Go
`json.RawMessage` fields become `Json` (or `Option Json` when nil-ness
matters).  Go maps marshalled by `encoding/json` have their keys sorted
on the wire; since JSON objects are unordered we keep the association
lists in the order the Go source writes the literals and state
order-insensitive properties (field lookups) wherever an exact frame is
claimed.  Channels are modelled by explicit event lists, goroutine
scheduling by the order of those lists, and `context` plumbing by
explicit wake events.
-/

namespace Clawde

/-- JSON values (model of Go `encoding/json` terms used by the SDK).
Numbers are restricted to integers: no claim mentions a fractional
value. -/
inductive Json where
  | null : Json
  | bool (b : Bool) : Json
  | num (n : Int) : Json
  | str (s : String) : Json
  | arr (elems : List Json) : Json
  | obj (fields : List (String × Json)) : Json

/-- Field lookup in a JSON object (returns `none` for non-objects). -/
def Json.lookup : Json → String → Option Json
  | .obj fields, key => fields.lookup key
  | _, _ => none

/-- Go `json.Unmarshal` of a JSON value into a `string` field: strings
decode to themselves, `null` leaves the zero value `""`, anything else
is a type error. -/
def Json.asStr : Json → Except String String
  | .str s => .ok s
  | .null => .ok ""
  | _ => .error "cannot unmarshal into Go string"

/-- Go `json.Unmarshal` into an integer field (`int`). -/
def Json.asInt : Json → Except String Int
  | .num n => .ok n
  | .null => .ok 0
  | _ => .error "cannot unmarshal into Go int"

/-- Go `json.Unmarshal` into a `bool` field. -/
def Json.asBool : Json → Except String Bool
  | .bool b => .ok b
  | .null => .ok false
  | _ => .error "cannot unmarshal into Go bool"

/-- Decoding a struct string field: an absent key leaves the zero value. -/
def getStr (j : Json) (key : String) : Except String String :=
  match j.lookup key with
  | none => .ok ""
  | some v => v.asStr

/-- Decoding a struct int field. -/
def getInt (j : Json) (key : String) : Except String Int :=
  match j.lookup key with
  | none => .ok 0
  | some v => v.asInt

/-- Decoding a struct bool field. -/
def getBool (j : Json) (key : String) : Except String Bool :=
  match j.lookup key with
  | none => .ok false
  | some v => v.asBool

/-- Decoding a `json.RawMessage` struct field: any JSON value is
captured verbatim, an absent key leaves the nil slice (`none`). -/
def getRaw (j : Json) (key : String) : Option Json :=
  j.lookup key

/-- Go `json.Unmarshal` into a struct succeeds only on objects and on
`null` (which leaves every field at its zero value). -/
def Json.isStructLike : Json → Bool
  | .obj _ => true
  | .null => true
  | _ => false

/-- Errors surfaced by the SDK (`errors.go`): the sentinel errors plus
the structured kinds, carrying only the data the claims consult. -/
inductive CErr where
  | parseErr (msg : String)
  | protocolErr (msg : String)
  | notConnected
  | alreadyConnected
  | streamClosed
  | timeoutErr
  | interruptedErr
  | ctxCanceled
  | processErr (exitCode : Int) (stderr : String)
  deriving DecidableEq

/-! ## Content blocks and conversation messages (`types.go`, `parser.go`) -/

/-- Image source (`types.go`, `ImageSource`). -/
structure ImageSource where
  type : String := ""
  mediaType : String := ""
  data : String := ""

/-- Typed content block (`types.go`): the tagged variants produced by the
parser.  `toolResult.content` keeps the raw JSON (`json.RawMessage`),
`none` when the field was absent. -/
inductive ContentBlock where
  | text (t : String)
  | thinking (t : String) (signature : String)
  | toolUse (id : String) (name : String) (input : Option Json)
  | toolResult (toolUseId : String) (content : Option Json) (isError : Bool)
  | image (source : ImageSource)

/-- Raw content block as unmarshalled into `rawContentBlock`
(`types.go`).  `json.RawMessage` fields are `Option Json` (nil slice
when the key is absent). -/
structure RawContentBlock where
  type : String := ""
  text : String := ""
  thinking : String := ""
  signature : String := ""
  id : String := ""
  name : String := ""
  input : Option Json := none
  toolUseId : String := ""
  content : Option Json := none
  isError : Bool := false
  source : Option Json := none

/-- Go `json.Unmarshal` of a JSON value into `rawContentBlock`. -/
def decodeRawContentBlock (j : Json) : Except String RawContentBlock :=
  if j.isStructLike then do
    let type ← getStr j "type"
    let text ← getStr j "text"
    let thinking ← getStr j "thinking"
    let signature ← getStr j "signature"
    let id ← getStr j "id"
    let name ← getStr j "name"
    let toolUseId ← getStr j "tool_use_id"
    let isError ← getBool j "is_error"
    .ok { type, text, thinking, signature, id, name,
          input := getRaw j "input", toolUseId,
          content := getRaw j "content", isError,
          source := getRaw j "source" }
  else .error "cannot unmarshal into rawContentBlock"

/-- Go `json.Unmarshal` of a JSON value into `ImageSource`. -/
def decodeImageSource (j : Json) : Except String ImageSource :=
  if j.isStructLike then do
    let type ← getStr j "type"
    let mediaType ← getStr j "media_type"
    let data ← getStr j "data"
    .ok { type, mediaType, data }
  else .error "cannot unmarshal into ImageSource"

/-- Model of `parseContentBlock` (`parser.go`): dispatch on the raw
block type; unknown types degrade to a text block carrying the type. -/
def parseContentBlock (raw : RawContentBlock) : Except CErr ContentBlock :=
  if raw.type = "text" then .ok (.text raw.text)
  else if raw.type = "thinking" then .ok (.thinking raw.thinking raw.signature)
  else if raw.type = "tool_use" then .ok (.toolUse raw.id raw.name raw.input)
  else if raw.type = "tool_result" then
    .ok (.toolResult raw.toolUseId raw.content raw.isError)
  else if raw.type = "image" then
    match raw.source with
    | none => .ok (.image {})
    | some srcJson =>
      match decodeImageSource srcJson with
      | .ok src => .ok (.image src)
      | .error _ => .error (.parseErr "failed to parse image source")
  else .ok (.text ("[unknown block type: " ++ raw.type ++ "]"))

/-- Decoding of a JSON array into `[]rawContentBlock` followed by
per-element `parseContentBlock` (loop body of `parseContent`). -/
def parseContentList : List Json → Except CErr (List ContentBlock)
  | [] => .ok []
  | j :: rest =>
    match decodeRawContentBlock j with
    | .error _ => .error (.parseErr "failed to parse content")
    | .ok raw =>
      match parseContentBlock raw with
      | .error e => .error e
      | .ok b =>
        match parseContentList rest with
        | .error e => .error e
        | .ok bs => .ok (b :: bs)

/-- Model of `parseContent` (`parser.go`): an array of typed blocks, a
plain string (wrapped as one text block), or `null` (Go unmarshals it
into a nil slice).  In Go a failing element decode fails the whole
array unmarshal and the string fallback, yielding the same parse
error. -/
def parseContent (data : Json) : Except CErr (List ContentBlock) :=
  match data with
  | .arr items => parseContentList items
  | .str s => .ok [.text s]
  | .null => .ok []
  | _ => .error (.parseErr "failed to parse content")

/-- Final result statistics (`types.go`, `ResultMessage`).  The cost is
kept as raw JSON (it is a float the claims never inspect). -/
structure ResultRec where
  subtype : String := ""
  durationMs : Int := 0
  durationApiMs : Int := 0
  isError : Bool := false
  numTurns : Int := 0
  sessionId : String := ""
  totalCost : Option Json := none
  usage : Option Json := none
  result : String := ""
  structuredOutput : Option Json := none

/-- Conversation message (`types.go`): the tagged variants delivered to
the session stream. -/
inductive Msg where
  | user (content : List ContentBlock) (uuid : String) (parentToolUseId : String)
  | assistant (content : List ContentBlock) (model : String)
      (parentToolUseId : String) (errorKind : String)
  | system (subtype : String) (data : Option Json)
  | result (r : ResultRec)
  | streamEvent (uuid : String) (sessionId : String) (event : Option Json)
      (parentToolUseId : String)

/-- Whether a message is the terminal result message. -/
def Msg.isResult : Msg → Bool
  | .result _ => true
  | _ => false

/-- Raw frame fields as unmarshalled into `rawMessage` (`types.go`). -/
structure RawMsg where
  type : String := ""
  content : Option Json := none
  model : String := ""
  uuid : String := ""
  sessionId : String := ""
  parentToolUseId : String := ""
  errorKind : String := ""
  subtype : String := ""
  data : Option Json := none
  durationMs : Int := 0
  durationApiMs : Int := 0
  isError : Bool := false
  numTurns : Int := 0
  totalCost : Option Json := none
  usage : Option Json := none
  result : String := ""
  structuredOutput : Option Json := none
  event : Option Json := none

/-- Go `json.Unmarshal` of a frame into `rawMessage`. -/
def decodeRawMsg (j : Json) : Except String RawMsg :=
  if j.isStructLike then do
    let type ← getStr j "type"
    let model ← getStr j "model"
    let uuid ← getStr j "uuid"
    let sessionId ← getStr j "session_id"
    let parentToolUseId ← getStr j "parent_tool_use_id"
    let errorKind ← getStr j "error"
    let subtype ← getStr j "subtype"
    let durationMs ← getInt j "duration_ms"
    let durationApiMs ← getInt j "duration_api_ms"
    let isError ← getBool j "is_error"
    let numTurns ← getInt j "num_turns"
    let result ← getStr j "result"
    .ok { type, content := getRaw j "content", model, uuid, sessionId,
          parentToolUseId, errorKind, subtype, data := getRaw j "data",
          durationMs, durationApiMs, isError, numTurns,
          totalCost := getRaw j "total_cost_usd", usage := getRaw j "usage",
          result, structuredOutput := getRaw j "structured_output",
          event := getRaw j "event" }
  else .error "cannot unmarshal into rawMessage"

/-- Content parsing guarded by `len(raw.Content) > 0` (`parser.go`). -/
def parseOptContent (c : Option Json) : Except CErr (List ContentBlock) :=
  match c with
  | none => .ok []
  | some data => parseContent data

/-- Model of the `data`/`usage`/`event` object decodes (`parser.go`
unmarshals them into Go maps, which only accept objects or `null`). -/
def decodeObjLike (c : Option Json) (msg : String) : Except CErr (Option Json) :=
  match c with
  | none => .ok none
  | some v => if v.isStructLike then .ok (some v) else .error (.parseErr msg)

/-- Session-id extraction of `parseResultMessage` (`parser.go`): read
`session_id` from the `data` field, ignoring decode failures. -/
def resultSessionId (data : Option Json) : String :=
  match data with
  | none => ""
  | some d =>
    if d.isStructLike then
      match getStr d "session_id" with
      | .ok s => s
      | .error _ => ""
    else ""

/-- Model of `ParseMessage` (`parser.go`): decode the raw envelope and
dispatch on the top-level `type`. -/
def ParseMessage (j : Json) : Except CErr Msg :=
  match decodeRawMsg j with
  | .error _ => .error (.parseErr "failed to parse message")
  | .ok raw =>
    if raw.type = "user" then
      match parseOptContent raw.content with
      | .error e => .error e
      | .ok content => .ok (.user content raw.uuid raw.parentToolUseId)
    else if raw.type = "assistant" then
      match parseOptContent raw.content with
      | .error e => .error e
      | .ok content =>
        .ok (.assistant content raw.model raw.parentToolUseId raw.errorKind)
    else if raw.type = "system" then
      match decodeObjLike raw.data "failed to parse system message data" with
      | .error e => .error e
      | .ok data => .ok (.system raw.subtype data)
    else if raw.type = "result" then
      match decodeObjLike raw.usage "failed to parse usage data" with
      | .error e => .error e
      | .ok usage =>
        .ok (.result { subtype := raw.subtype, durationMs := raw.durationMs,
                       durationApiMs := raw.durationApiMs,
                       isError := raw.isError, numTurns := raw.numTurns,
                       sessionId := resultSessionId raw.data,
                       totalCost := raw.totalCost, usage,
                       result := raw.result,
                       structuredOutput := raw.structuredOutput })
    else if raw.type = "stream_event" then
      match decodeObjLike raw.event "failed to parse stream event" with
      | .error e => .error e
      | .ok event =>
        .ok (.streamEvent raw.uuid raw.sessionId event raw.parentToolUseId)
    else .error (.parseErr ("unknown message type: " ++ raw.type))

/-- Unmarshal of a frame into an envelope struct holding only the
top-level `type` field (used by `IsControlRequest`, `IsControlResponse`
and the `processLoop` of part_011). -/
def decodeTypeField (j : Json) : Except String String :=
  if j.isStructLike then getStr j "type"
  else .error "cannot unmarshal envelope"

/-- Model of `IsControlRequest` (`parser.go`). -/
def IsControlRequest (j : Json) : Bool :=
  match decodeTypeField j with
  | .error _ => false
  | .ok t => t = "control_request"

/-- Model of `IsControlResponse` (`parser.go`). -/
def IsControlResponse (j : Json) : Bool :=
  match decodeTypeField j with
  | .error _ => false
  | .ok t => t = "control_response"

/-! ## Permission types (draft A `permission.go`, draft B part_017) -/

/-- Rendering of `Error()` strings used when an error is placed into a
control response (`errors.go`). -/
def CErr.msgStr : CErr → String
  | .parseErr m => "clawde: parse error: " ++ m
  | .protocolErr m => "clawde: protocol error: " ++ m
  | .notConnected => "clawde: client not connected"
  | .alreadyConnected => "clawde: client already connected"
  | .streamClosed => "clawde: stream closed"
  | .timeoutErr => "clawde: operation timed out"
  | .interruptedErr => "clawde: operation interrupted"
  | .ctxCanceled => "context canceled"
  | .processErr _ s => "clawde: process error: " ++ s

/-- Permission request handed to the decider (`permission.go` /
part_017; the union of both drafts' fields).  Suggested permission
updates are kept as raw JSON objects: no claim inspects them. -/
structure PermReq where
  toolName : String := ""
  input : Option Json := none
  suggestions : List Json := []
  blockedPath : String := ""

/-- Draft A permission result (`permission.go`): pointer-receiver
`PermissionAllow` / `PermissionDeny`, rendered by `ToJSON`. -/
inductive PermissionResultA where
  | allow (updatedInput : Option Json) (updatedPermissions : List Json)
  | deny (message : String) (interrupt : Bool)

/-- Model of the `ToJSON` methods in `permission.go`. -/
def permAToJson : PermissionResultA → Json
  | .allow ui ups =>
    .obj ([("behavior", .str "allow")] ++
          (match ui with | some v => [("updatedInput", v)] | none => []) ++
          (if ups.isEmpty then [] else [("updatedPermissions", .arr ups)]))
  | .deny m i =>
    .obj [("behavior", .str "deny"), ("message", .str m), ("interrupt", .bool i)]

/-- `Deny` constructor (`permission.go`). -/
def DenyA (message : String) : PermissionResultA := .deny message false

/-- `DenyAndInterrupt` constructor (`permission.go`). -/
def DenyAndInterruptA (message : String) : PermissionResultA := .deny message true

/-- Draft B permission result (part_017): value-receiver
`PermissionAllow` / `PermissionDeny`.  `unknownImpl` stands for any
other implementation of the `PermissionResult` interface (for example a
pointer-wrapped value), which part_011 routes through its `default`
branch. -/
inductive PermissionResultB where
  | allow (updatedInput : Option Json)
  | deny (message : String) (interrupt : Bool)
  | unknownImpl

/-- `Deny` constructor (part_017). -/
def DenyB (message : String) : PermissionResultB := .deny message false

/-- `DenyAndInterrupt` constructor (part_017). -/
def DenyAndInterruptB (message : String) : PermissionResultB := .deny message true

/-! ## Hook types (draft A part_013, draft B `hooks.go`/part_001) -/

/-- Hook input (part_013 `HookInput`, a superset of the `hooks.go`
variant; JSON tags from part_013). -/
structure HookInputM where
  event : String := ""
  sessionId : String := ""
  transcriptPath : String := ""
  workingDir : String := ""
  permissionMode : String := ""
  toolName : String := ""
  toolInput : Option Json := none
  toolOutput : Option Json := none
  toolUseId : String := ""
  prompt : String := ""
  stopHookActive : Bool := false
  trigger : String := ""
  customInstructions : String := ""

/-- Hook output: union of the part_013 fields (rendered by its
`ToJSON`) and the `hooks.go` fields (`modifiedInput`, copied verbatim
by part_011); each draft reads only the fields its own type has. -/
structure HookOutputM where
  cont : Bool := false
  decision : String := ""
  reason : String := ""
  stopReason : String := ""
  modifiedInput : Option Json := none
  suppressOutput : Bool := false
  systemMessage : String := ""
  async : Bool := false
  asyncTimeout : Int := 0

/-- Model of `HookOutput.ToJSON` (part_013). -/
def hookOutputToJsonA (h : HookOutputM) : Json :=
  if h.async then
    .obj ([("async", .bool true)] ++
          (if h.asyncTimeout > 0 then [("asyncTimeout", .num h.asyncTimeout)] else []))
  else
    .obj ((if h.cont then [] else [("continue", .bool false)]) ++
          (if h.decision = "" then [] else [("decision", .str h.decision)]) ++
          (if h.reason = "" then [] else [("reason", .str h.reason)]) ++
          (if h.stopReason = "" then [] else [("stopReason", .str h.stopReason)]) ++
          (if h.suppressOutput then [("suppressOutput", .bool true)] else []) ++
          (if h.systemMessage = "" then [] else [("systemMessage", .str h.systemMessage)]))

/-- Hook matcher (`hooks.go`/part_013): a tool-name pattern, a callback
and an optional timeout.  The callback result models Go
`(*HookOutput, error)`: an error message, or an optional output
(`none` = nil output). -/
structure HookMatcherM where
  toolName : String := ""
  callback : HookInputM → Except String (Option HookOutputM) := fun _ => .ok none
  timeoutMs : Int := 0

/-- Model of `HookMatcher.matchesHook` (part_013). -/
def matchesHookA (m : HookMatcherM) (input : HookInputM) : Bool :=
  m.toolName = "*" || m.toolName = "" || m.toolName = input.toolName

/-- Go `json.Unmarshal` into `HookInput` (part_013 JSON tags). -/
def decodeHookInput (j : Json) : Except String HookInputM :=
  if j.isStructLike then do
    let event ← getStr j "hook_event_name"
    let sessionId ← getStr j "session_id"
    let transcriptPath ← getStr j "transcript_path"
    let workingDir ← getStr j "cwd"
    let permissionMode ← getStr j "permission_mode"
    let toolName ← getStr j "tool_name"
    let toolUseId ← getStr j "tool_use_id"
    let prompt ← getStr j "prompt"
    let stopHookActive ← getBool j "stop_hook_active"
    let trigger ← getStr j "trigger"
    let customInstructions ← getStr j "custom_instructions"
    .ok { event, sessionId, transcriptPath, workingDir, permissionMode,
          toolName, toolInput := getRaw j "tool_input",
          toolOutput := getRaw j "tool_response", toolUseId, prompt,
          stopHookActive, trigger, customInstructions }
  else .error "cannot unmarshal into HookInput"

/-! ## MCP servers -/

/-- In-process MCP server, shared shape for both drafts: the tool list
plus the request handler (`HandleRequest` in `mcp.go`,
`HandleMCPRequest` in part_016), which is kept opaque — its argument is
the method and the raw params, its result the reply JSON or an error
message. -/
structure MCPServerM where
  tools : List (String × String × Json) := []
  handle : String → Option Json → Except String Json := fun _ _ => .error "no handler"

/-! ## Control protocol, draft B (part_001 + part_011) -/

/-- `CanUseToolRequest` (part_001 / `protocol.go`, shared shape). -/
structure CanUseToolReq where
  toolName : String := ""
  input : Option Json := none
  suggestions : List Json := []
  blockedPath : String := ""

/-- `CanUseToolResponse` (part_001). -/
structure CanUseToolResp where
  allowed : Bool := false
  reason : String := ""
  updatedInput : Option Json := none
  interrupt : Bool := false

/-- `HookCallbackRequest` (part_001): `Input` is a pointer, hence
`Option`. -/
structure HookCallbackReq where
  callbackId : String := ""
  event : String := ""
  input : Option HookInputM := none

/-- `HookCallbackResponse` (part_001). -/
structure HookCallbackResp where
  cont : Bool := false
  decision : String := ""
  reason : String := ""
  stopReason : String := ""
  modifiedInput : Option Json := none

/-- `MCPMessageRequest` (part_001). -/
structure MCPMessageReq where
  serverName : String := ""
  method : String := ""
  params : Option Json := none

/-- `MCPMessageResponse` (part_001): a result or a coded error. -/
structure MCPResp where
  result : Option Json := none
  errCode : Option (Int × String) := none

/-- `InitializeRequest` (part_001). -/
structure InitReqB where
  protocolVersion : String := ""
  hooks : Option Json := none
  mcpServers : Option Json := none

/-- Parsed inner control request (result of part_001
`parseControlRequest`). -/
inductive InnerReq where
  | initR (r : InitReqB)
  | canUse (r : CanUseToolReq)
  | hookCb (r : HookCallbackReq)
  | mcpMsg (r : MCPMessageReq)

/-- Decoding a list of raw JSON objects (suggested permission updates;
Go checks each element is an object, the typed fields are not inspected
by any claim). -/
def decodeRawList (j : Json) : Except String (List Json) :=
  match j with
  | .arr items =>
    if items.all Json.isStructLike then .ok items
    else .error "cannot unmarshal permission update"
  | .null => .ok []
  | _ => .error "cannot unmarshal permission update list"

/-- Go `json.Unmarshal` into part_001 `CanUseToolRequest`
(`suggestions` key). -/
def decodeCanUseToolB (j : Json) : Except String CanUseToolReq :=
  if j.isStructLike then do
    let toolName ← getStr j "tool_name"
    let suggestions ←
      match j.lookup "suggestions" with
      | none => Except.ok []
      | some v => decodeRawList v
    .ok { toolName, input := getRaw j "input", suggestions }
  else .error "cannot unmarshal into CanUseToolRequest"

/-- Go `json.Unmarshal` into part_001 `HookCallbackRequest`. -/
def decodeHookCallbackB (j : Json) : Except String HookCallbackReq :=
  if j.isStructLike then do
    let callbackId ← getStr j "callback_id"
    let event ← getStr j "event"
    let input ←
      match j.lookup "input" with
      | none => Except.ok none
      | some .null => Except.ok none
      | some v => (decodeHookInput v).map some
    .ok { callbackId, event, input }
  else .error "cannot unmarshal into HookCallbackRequest"

/-- Go `json.Unmarshal` into part_001 `MCPMessageRequest`. -/
def decodeMCPMessageB (j : Json) : Except String MCPMessageReq :=
  if j.isStructLike then do
    let serverName ← getStr j "server_name"
    let method ← getStr j "method"
    .ok { serverName, method, params := getRaw j "params" }
  else .error "cannot unmarshal into MCPMessageRequest"

/-- Go `json.Unmarshal` into part_001 `InitializeRequest`. -/
def decodeInitB (j : Json) : Except String InitReqB :=
  if j.isStructLike then do
    let protocolVersion ← getStr j "protocol_version"
    let hooks ←
      match j.lookup "hooks" with
      | none => Except.ok none
      | some v => if v.isStructLike then Except.ok (some v)
                  else Except.error "cannot unmarshal hooks"
    let mcpServers ←
      match j.lookup "mcp_servers" with
      | none => Except.ok none
      | some v => if v.isStructLike then Except.ok (some v)
                  else Except.error "cannot unmarshal mcp_servers"
    .ok { protocolVersion, hooks, mcpServers }
  else .error "cannot unmarshal into InitializeRequest"

/-- Model of part_001 `parseControlRequest`: read the `subtype`
discriminator of the inner request and decode the matching struct; an
unrecognised subtype is a protocol error.  The argument is the raw
`request` field of the envelope (`none` = nil `json.RawMessage`, whose
unmarshal fails in Go). -/
def parseControlRequestB (request : Option Json) : Except CErr InnerReq :=
  match request with
  | none => .error (.parseErr "unexpected end of JSON input")
  | some req =>
    if req.isStructLike then
      match getStr req "subtype" with
      | .error e => .error (.parseErr e)
      | .ok sub =>
        if sub = "initialize" then
          match decodeInitB req with
          | .error e => .error (.parseErr e)
          | .ok r => .ok (.initR r)
        else if sub = "can_use_tool" then
          match decodeCanUseToolB req with
          | .error e => .error (.parseErr e)
          | .ok r => .ok (.canUse r)
        else if sub = "hook_callback" then
          match decodeHookCallbackB req with
          | .error e => .error (.parseErr e)
          | .ok r => .ok (.hookCb r)
        else if sub = "mcp_message" then
          match decodeMCPMessageB req with
          | .error e => .error (.parseErr e)
          | .ok r => .ok (.mcpMsg r)
        else .error (.protocolErr ("unknown request subtype: " ++ sub))
    else .error (.parseErr "cannot unmarshal control request")

/-- Draft B options (the fields of `Options` that the `QueryHandler`
consults; built by the functional options of `options.go`). -/
structure OptionsB where
  hooks : List (String × List HookMatcherM) := []
  sdkServers : List (String × MCPServerM) := []
  permissionCallback : Option (PermReq → PermissionResultB) := none

/-- Model of `QueryHandler.handleCanUseTool` (part_011): no decider
means allow; otherwise the decider result is translated field by
field. -/
def qhHandleCanUseTool (opts : OptionsB) (req : CanUseToolReq) : CanUseToolResp :=
  match opts.permissionCallback with
  | none => { allowed := true }
  | some cb =>
    match cb { toolName := req.toolName, input := req.input,
               suggestions := req.suggestions } with
    | .allow ui => { allowed := true, updatedInput := ui }
    | .deny m i => { allowed := false, reason := m, interrupt := i }
    | .unknownImpl => { allowed := true }

/-- Suffix stripping of part_011 `handleHookCallback`: drop a trailing
`_callback` when the id is strictly longer than the suffix. -/
def stripCallbackSuffix (s : String) : String :=
  if s.length > 9 && s.endsWith "_callback" then s.dropRight 9 else s

/-- Event resolution of part_011 `handleHookCallback`: use the `event`
field if present, otherwise derive it from `callback_id`. -/
def qhHookEvent (req : HookCallbackReq) : String :=
  if req.event = "" && req.callbackId != "" then stripCallbackSuffix req.callbackId
  else req.event

/-- Matcher loop of part_011 `handleHookCallback`: skip matchers whose
tool is neither `*` nor the input tool; a callback error becomes a
block response; a non-nil output with `Continue == false` is returned
verbatim; otherwise continue with the next matcher. -/
def qhRunHookMatchers (input : HookInputM) : List HookMatcherM → HookCallbackResp
  | [] => { cont := true }
  | m :: rest =>
    if m.toolName != "*" && m.toolName != input.toolName then
      qhRunHookMatchers input rest
    else
      match m.callback input with
      | .error e => { cont := false, decision := "block", reason := e }
      | .ok none => qhRunHookMatchers input rest
      | .ok (some o) =>
        if o.cont then qhRunHookMatchers input rest
        else { cont := o.cont, decision := o.decision, reason := o.reason,
               stopReason := o.stopReason, modifiedInput := o.modifiedInput }

/-- Model of `QueryHandler.handleHookCallback` (part_011).  A nil
`req.Input` pointer is modelled as the zero `HookInput` (the Go code
would dereference it only when a matcher list exists). -/
def qhHandleHookCallback (opts : OptionsB) (req : HookCallbackReq) : HookCallbackResp :=
  match (opts.hooks.lookup (qhHookEvent req)).getD [] with
  | [] => { cont := true }
  | ms => qhRunHookMatchers (req.input.getD {}) ms

/-- Model of `QueryHandler.handleMCPMessage` (part_011). -/
def qhHandleMCPMessage (opts : OptionsB) (req : MCPMessageReq) : MCPResp :=
  match opts.sdkServers.lookup req.serverName with
  | none => { errCode := some (-32601, "server not found: " ++ req.serverName) }
  | some server =>
    match server.handle req.method req.params with
    | .error e => { errCode := some (-32603, e) }
    | .ok result => { result := some result }

/-- Marshalling of part_001 `CanUseToolResponse` (struct field order,
`omitempty` on all but `allowed`). -/
def canUseRespJson (r : CanUseToolResp) : Json :=
  .obj ([("allowed", .bool r.allowed)] ++
        (if r.reason = "" then [] else [("reason", .str r.reason)]) ++
        (match r.updatedInput with | some v => [("updated_input", v)] | none => []) ++
        (if r.interrupt then [("interrupt", .bool true)] else []))

/-- Marshalling of part_001 `HookCallbackResponse`. -/
def hookRespJson (r : HookCallbackResp) : Json :=
  .obj ([("continue", .bool r.cont)] ++
        (if r.decision = "" then [] else [("decision", .str r.decision)]) ++
        (if r.reason = "" then [] else [("reason", .str r.reason)]) ++
        (if r.stopReason = "" then [] else [("stop_reason", .str r.stopReason)]) ++
        (match r.modifiedInput with
         | some v => [("modified_input", v)] | none => []))

/-- Marshalling of part_001 `MCPMessageResponse`. -/
def mcpRespJson (r : MCPResp) : Json :=
  .obj ((match r.result with | some v => [("result", v)] | none => []) ++
        (match r.errCode with
         | some (c, m) => [("error", .obj [("code", .num c), ("message", .str m)])]
         | none => []))

/-- Success envelope built by part_011 `handleControlRequest` (it is
always tagged `success`, even for error payloads). -/
def qhControlRespEnvelope (requestId : String) (payload : Json) : Json :=
  .obj [("type", .str "control_response"),
        ("response", .obj [("subtype", .str "success"),
                           ("request_id", .str requestId),
                           ("response", payload)])]

/-- Inner response JSON chosen by part_011 `handleControlRequest` per
request kind (`handleInitialize` returns `{success: true}`). -/
def qhInnerResponse (opts : OptionsB) : InnerReq → Json
  | .initR _ => .obj [("success", .bool true)]
  | .canUse r => canUseRespJson (qhHandleCanUseTool opts r)
  | .hookCb r => hookRespJson (qhHandleHookCallback opts r)
  | .mcpMsg r => mcpRespJson (qhHandleMCPMessage opts r)

/-- Frames written and errors emitted by one handler invocation. -/
structure HandlerOut where
  writes : List Json := []
  errs : List CErr := []

/-- Model of `QueryHandler.handleControlRequest` (part_011), entered
with the decoded envelope: a failing inner parse (including an
unrecognised subtype) only emits on the error channel — no response
frame is written; otherwise exactly one success envelope is written. -/
def qhHandleControlRequest (opts : OptionsB) (requestId : String)
    (request : Option Json) : HandlerOut :=
  match parseControlRequestB request with
  | .error e => { writes := [], errs := [e] }
  | .ok inner =>
    { writes := [qhControlRespEnvelope requestId (qhInnerResponse opts inner)],
      errs := [] }

/-! ## Control protocol, draft A (`protocol.go` + `query.go`) -/

/-- Draft A environment: the fields of `Query` populated by `newQuery`
(`query.go`). -/
structure EnvA where
  hooks : List (String × List HookMatcherM) := []
  mcpServers : List (String × MCPServerM) := []
  canUseTool : Option (PermReq → PermissionResultA) := none

/-- Model of `parseControlRequestSubtype` (`protocol.go`): unmarshal
the inner request into a struct holding `subtype`.  The argument is the
raw `request` field (`none` = nil, whose unmarshal fails). -/
def subtypeOf (request : Option Json) : Except CErr String :=
  match request with
  | none => .error (.parseErr "failed to parse control request subtype")
  | some req =>
    if req.isStructLike then
      match getStr req "subtype" with
      | .ok s => .ok s
      | .error _ => .error (.parseErr "failed to parse control request subtype")
    else .error (.parseErr "failed to parse control request subtype")

/-- Model of `buildControlResponse` with `success = true`
(`protocol.go`). -/
def successResponse (requestId : String) (payload : Json) : Json :=
  .obj [("type", .str "control_response"),
        ("response", .obj [("subtype", .str "success"),
                           ("request_id", .str requestId),
                           ("response", payload)])]

/-- Model of `buildErrorResponse` (`protocol.go`). -/
def errorResponse (requestId : String) (errMsg : String) : Json :=
  .obj [("type", .str "control_response"),
        ("response", .obj [("subtype", .str "error"),
                           ("request_id", .str requestId),
                           ("error", .str errMsg)])]

/-- Go `json.Unmarshal` into `protocol.go` `CanUseToolRequest`
(`permission_suggestions` / `blocked_path` keys). -/
def decodeCanUseToolA (j : Json) : Except String CanUseToolReq :=
  if j.isStructLike then do
    let toolName ← getStr j "tool_name"
    let suggestions ←
      match j.lookup "permission_suggestions" with
      | none => Except.ok []
      | some v => decodeRawList v
    let blockedPath ← getStr j "blocked_path"
    .ok { toolName, input := getRaw j "input", suggestions, blockedPath }
  else .error "cannot unmarshal into CanUseToolRequest"

/-- Model of `Query.handleCanUseTool` (`query.go`): without a decider
respond `{"behavior": "allow"}`, otherwise render the decider result
with its `ToJSON`. -/
def queryHandleCanUseTool (env : EnvA) (request : Json) : Except String Json :=
  match decodeCanUseToolA request with
  | .error e => .error ("failed to parse can_use_tool request: " ++ e)
  | .ok req =>
    match env.canUseTool with
    | none => .ok (.obj [("behavior", .str "allow")])
    | some cb =>
      .ok (permAToJson (cb { toolName := req.toolName, input := req.input,
                             suggestions := req.suggestions,
                             blockedPath := req.blockedPath }))

/-- Matcher loop of `Query.handleHookCallback` (`query.go`): matching
uses part_013 `matchesHook`; a callback error aborts the whole handler
(wrapped as `hook callback error`), a non-nil output with
`Continue == false` is rendered by `ToJSON` and returned. -/
def queryRunHookMatchers (input : HookInputM) :
    List HookMatcherM → Except String Json
  | [] => .ok (hookOutputToJsonA { cont := true })
  | m :: rest =>
    if matchesHookA m input then
      match m.callback input with
      | .error e => .error ("hook callback error: " ++ e)
      | .ok none => queryRunHookMatchers input rest
      | .ok (some o) =>
        if o.cont then queryRunHookMatchers input rest
        else .ok (hookOutputToJsonA o)
    else queryRunHookMatchers input rest

/-- Model of `Query.handleHookCallback` (`query.go`): decode the
request (`protocol.go` tags) and its embedded hook input, look up the
matchers for the event carried by the input, and run them. -/
def queryHandleHookCallback (env : EnvA) (request : Json) : Except String Json :=
  if !request.isStructLike then
    .error "failed to parse hook_callback request: cannot unmarshal"
  else match getStr request "callback_id" with
  | .error e => .error ("failed to parse hook_callback request: " ++ e)
  | .ok _ =>
    match request.lookup "input" with
    | none => .error "failed to parse hook input: unexpected end of JSON input"
    | some inputRaw =>
      match decodeHookInput inputRaw with
      | .error e => .error ("failed to parse hook input: " ++ e)
      | .ok hookInput =>
        match (env.hooks.lookup hookInput.event).getD [] with
        | [] => .ok (hookOutputToJsonA { cont := true })
        | ms => queryRunHookMatchers hookInput ms

/-- Model of `Query.handleMCPMessage` (`query.go`): resolve the server,
decode the JSON-RPC message, and translate a handler error into a coded
error payload (never a transport error). -/
def queryHandleMCPMessage (env : EnvA) (request : Json) : Except String Json :=
  if !request.isStructLike then
    .error "failed to parse mcp_message request: cannot unmarshal"
  else
    match getStr request "server_name" with
    | .error e => .error ("failed to parse mcp_message request: " ++ e)
    | .ok serverName =>
      match env.mcpServers.lookup serverName with
      | none => .error ("unknown MCP server: " ++ serverName)
      | some server =>
        match request.lookup "message" with
        | none => .error "failed to parse MCP JSON-RPC request: unexpected end of JSON input"
        | some msg =>
          if !msg.isStructLike then
            .error "failed to parse MCP JSON-RPC request: cannot unmarshal"
          else
            match getStr msg "method" with
            | .error e => .error ("failed to parse MCP JSON-RPC request: " ++ e)
            | .ok method =>
              match server.handle method (getRaw msg "params") with
              | .error e =>
                .ok (.obj [("error", .obj [("code", .num (-32603)),
                                           ("message", .str e)])])
              | .ok result => .ok (.obj [("result", result)])

/-- Capability payload answered by `Query.handleControlRequest` for an
inbound `initialize` request (`query.go`). -/
def capabilitiesJson (env : EnvA) : Json :=
  .obj [("capabilities",
         .obj [("hooks", .bool (!env.hooks.isEmpty)),
               ("permissions", .bool env.canUseTool.isSome),
               ("mcp", .bool (!env.mcpServers.isEmpty))])]

/-- Response frames produced from a handler result (`query.go`:
`sendSuccessResponse` / `sendErrorResponse`). -/
def respWrites (requestId : String) (r : Except String Json) : List Json :=
  match r with
  | .ok payload => [successResponse requestId payload]
  | .error e => [errorResponse requestId e]

/-- Model of `Query.handleControlRequest` (`query.go`), entered with
the decoded envelope: every path — subtype parse failure, handler
failure, recognised and unrecognised subtypes — writes exactly one
control response echoing the request id. -/
def queryHandleControlRequest (env : EnvA) (requestId : String)
    (request : Option Json) : List Json :=
  match subtypeOf request with
  | .error e => [errorResponse requestId e.msgStr]
  | .ok st =>
    match request with
    | none => [errorResponse requestId (CErr.msgStr (.parseErr "failed to parse control request subtype"))]
    | some req =>
      if st = "can_use_tool" then respWrites requestId (queryHandleCanUseTool env req)
      else if st = "hook_callback" then respWrites requestId (queryHandleHookCallback env req)
      else if st = "mcp_message" then respWrites requestId (queryHandleMCPMessage env req)
      else if st = "initialize" then [successResponse requestId (capabilitiesJson env)]
      else [errorResponse requestId ("unknown control request subtype: " ++ st)]

/-! ## Routers (draft A `Query.routeMessages`, draft B
`QueryHandler.processLoop`) -/

/-- Decode of a full control-request envelope (`ControlRequest` struct
of `protocol.go` / part_001): the `request_id` and the raw inner
request. -/
def decodeControlEnvelope (j : Json) : Except CErr (String × Option Json) :=
  if j.isStructLike then
    match getStr j "request_id" with
    | .ok id => .ok (id, getRaw j "request")
    | .error _ => .error (.parseErr "failed to parse control request")
  else .error (.parseErr "failed to parse control request")

/-- Router state of draft A (`Query`): the session id recorded from
result messages.  The pending-request registry is not modelled here (no
claim routes an outbound response through this run). -/
structure RouterState where
  sessionId : String := ""

/-- Observable output of a router run. -/
structure RouterOut where
  writes : List Json := []
  msgs : List Msg := []
  errs : List CErr := []

/-- Concatenation of router outputs. -/
def RouterOut.append (a b : RouterOut) : RouterOut :=
  { writes := a.writes ++ b.writes, msgs := a.msgs ++ b.msgs,
    errs := a.errs ++ b.errs }

/-- Model of `Query.handleMessage` (`query.go`) on one inbound frame. -/
def queryHandleMessage (env : EnvA) (st : RouterState) (frame : Json) :
    RouterState × RouterOut :=
  if IsControlRequest frame then
    match decodeControlEnvelope frame with
    | .error e => (st, { writes := [errorResponse "" e.msgStr] })
    | .ok (id, inner) => (st, { writes := queryHandleControlRequest env id inner })
  else if IsControlResponse frame then
    (st, {})
  else
    match ParseMessage frame with
    | .error e => (st, { errs := [e] })
    | .ok msg =>
      match msg with
      | .result r => ({ st with sessionId := r.sessionId }, { msgs := [msg] })
      | _ => (st, { msgs := [msg] })

/-- Model of the frame-consuming loop of `Query.routeMessages`
(`query.go`): every frame is handled and the loop continues — no
control frame terminates it. -/
def queryRouterRun (env : EnvA) (st : RouterState) :
    List Json → RouterState × RouterOut
  | [] => (st, {})
  | frame :: rest =>
    let (st1, out1) := queryHandleMessage env st frame
    let (st2, out2) := queryRouterRun env st1 rest
    (st2, out1.append out2)

/-- Model of one iteration of `QueryHandler.processLoop` (part_011) on
an inbound frame.  Control responses are routed to the correlator
(modelled separately for the handshake) and produce no observable
output here; `control_cancel_request` is ignored. -/
def qhHandleFrame (opts : OptionsB) (frame : Json) : RouterOut :=
  match decodeTypeField frame with
  | .error _ => { errs := [.parseErr "cannot unmarshal envelope"] }
  | .ok t =>
    if t = "control_request" then
      match decodeControlEnvelope frame with
      | .error e => { errs := [e] }
      | .ok (id, inner) =>
        let out := qhHandleControlRequest opts id inner
        { writes := out.writes, errs := out.errs }
    else if t = "control_response" then {}
    else if t = "control_cancel_request" then {}
    else
      match ParseMessage frame with
      | .error e => { errs := [e] }
      | .ok msg => { msgs := [msg] }

/-- Model of the frame-consuming loop of `QueryHandler.processLoop`
(part_011): like draft A, no control frame terminates it. -/
def qhRouterRun (opts : OptionsB) : List Json → RouterOut
  | [] => {}
  | frame :: rest => (qhHandleFrame opts frame).append (qhRouterRun opts rest)

/-! ## Prompt frames (`QueryHandler.SendPrompt` part_011,
`Query.SendPrompt` `query.go`) -/

/-- Frame written by `QueryHandler.SendPrompt` (part_011): the content
is the plain prompt string, `parent_tool_use_id` and `session_id` are
present and null.  The Go literal order coincides with the spec frame
(`encoding/json` would serialize the map with sorted keys; JSON objects
are unordered). -/
def qhSendPromptFrame (prompt : String) : Json :=
  .obj [("type", .str "user"),
        ("message", .obj [("role", .str "user"), ("content", .str prompt)]),
        ("parent_tool_use_id", .null),
        ("session_id", .null)]

/-- Frame written by `Query.SendPrompt` (`query.go`): the content is an
array holding one text block, and there are no `parent_tool_use_id` /
`session_id` fields. -/
def querySendPromptFrame (prompt : String) : Json :=
  .obj [("type", .str "user"),
        ("message",
         .obj [("role", .str "user"),
               ("content", .arr [.obj [("type", .str "text"),
                                       ("text", .str prompt)]])])]

/-! ## Initialization handshake (part_011 `Initialize`, `client.go`
`Connect`, `query.go` `Initialize`) -/

/-- Per-matcher hook descriptor built by part_011 `Initialize`. -/
def qhMatcherConfig (event : String) (m : HookMatcherM) : Json :=
  .obj ([("matcher", .str m.toolName),
         ("hookCallbackIds", .arr [.str (event ++ "_callback")])] ++
        (if m.timeoutMs > 0 then [("timeout", .num m.timeoutMs)] else []))

/-- Hooks section of the initialize request (part_011). -/
def qhHooksConfig (hooks : List (String × List HookMatcherM)) : Option Json :=
  if hooks.isEmpty then none
  else some (.obj (hooks.map (fun p =>
    (p.1, .arr (p.2.map (qhMatcherConfig p.1))))))

/-- MCP-servers section of the initialize request (part_011). -/
def qhMcpServersConfig (servers : List (String × MCPServerM)) : Option Json :=
  if servers.isEmpty then none
  else some (.obj (servers.map (fun p =>
    (p.1, .obj [("type", .str "sdk"),
                ("tools", .arr (p.2.tools.map (fun t =>
                  .obj [("name", .str t.1),
                        ("description", .str t.2.1),
                        ("inputSchema", t.2.2)])))]))))

/-- The single initialize control request written by part_011
`Initialize`; the request id is `init_` followed by a nanosecond
timestamp, modelled by the `nonce` parameter. -/
def qhInitFrame (opts : OptionsB) (nonce : Nat) : Json :=
  .obj [("type", .str "control_request"),
        ("request_id", .str ("init_" ++ toString nonce)),
        ("request",
         .obj ([("subtype", .str "initialize")] ++
               (match qhHooksConfig opts.hooks with
                | some h => [("hooks", h)] | none => []) ++
               (match qhMcpServersConfig opts.sdkServers with
                | some m => [("mcp_servers", m)] | none => [])))]

/-- Which of the three select arms of part_011 `Initialize` fires
first: context cancellation, the matching control response delivered by
the correlator, or the 30-second timer. -/
inductive InitWake where
  | ctxDone
  | gotResponse
  | timedOut
  deriving DecidableEq

/-- Model of `QueryHandler.Initialize` (part_011): write exactly one
initialize control request and then block until one of the three wake
events; only the arrival of the matching control response yields
success, the 30 s timer yields a protocol error. -/
def qhInitRun (opts : OptionsB) (nonce : Nat) (wake : InitWake) :
    List Json × Except CErr Unit :=
  ([qhInitFrame opts nonce],
   match wake with
   | .ctxDone => .error .ctxCanceled
   | .gotResponse => .ok ()
   | .timedOut => .error (.protocolErr "initialization timeout"))

/-- Client connection flag (`client.go`). -/
structure ClientSt where
  connected : Bool := false

/-- Model of `Client.Connect` (`client.go`): start the transport, start
the query handler, run the initialization handshake; `connected` is set
only when the handshake succeeded.  `startRes` is the transport start
result. -/
def clientConnect (s : ClientSt) (startRes : Except CErr Unit)
    (opts : OptionsB) (nonce : Nat) (wake : InitWake) :
    ClientSt × List Json × Except CErr Unit :=
  if s.connected then (s, [], .error .alreadyConnected)
  else
    match startRes with
    | .error e => (s, [], .error e)
    | .ok _ =>
      let (writes, res) := qhInitRun opts nonce wake
      match res with
      | .error e => (s, writes, .error e)
      | .ok _ => ({ connected := true }, writes, .ok ())

/-- Model of `Client.Send` (`client.go`): a prompt on a client that is
not connected is rejected with `ErrNotConnected`; otherwise the prompt
frame of part_011 `SendPrompt` is written. -/
def clientSend (s : ClientSt) (prompt : String) : Except CErr Json :=
  if s.connected then .ok (qhSendPromptFrame prompt)
  else .error .notConnected

/-- Model of `Query.Initialize` state (`query.go`). -/
structure QInitSt where
  initRequested : Bool := false

/-- Hook descriptor list built by `Query.Initialize` (`query.go`). -/
def queryInitHookCfg (m : HookMatcherM) : Json :=
  .obj ((if m.toolName != "" && m.toolName != "*"
         then [("matcher", .str m.toolName)] else []) ++
        (if m.timeoutMs > 0 then [("timeout", .num m.timeoutMs)] else []))

/-- The initialize control request written by `Query.Initialize`
(`query.go`): note there is no `request_id` field. -/
def queryInitFrame (env : EnvA) : Json :=
  .obj [("type", .str "control_request"),
        ("request",
         .obj [("subtype", .str "initialize"),
               ("hooks",
                .obj ((env.hooks.filter (fun p => !p.2.isEmpty)).map
                  (fun p => (p.1, .arr (p.2.map queryInitHookCfg)))))])]

/-- Model of `Query.Initialize` (`query.go`): it writes the initialize
request and returns success immediately — it takes no wake event
because it never waits for a control response and has no timeout. -/
def queryInitRun (s : QInitSt) (env : EnvA) :
    QInitSt × List Json × Except CErr Unit :=
  if s.initRequested then (s, [], .ok ())
  else ({ initRequested := true }, [queryInitFrame env], .ok ())

/-! ## Close models (C8) -/

/-- Observable state of `SubprocessTransport` touched by `Close`
(`subprocess.go`). -/
structure TransportSt where
  closed : Bool := false
  doneChClosed : Bool := false
  stdinClosed : Bool := false
  procKilled : Bool := false
  deriving DecidableEq

/-- Model of `SubprocessTransport.Close` (`subprocess.go`): guarded by
the `closed` flag, so `close(t.doneCh)` runs at most once. -/
def subprocessClose (s : TransportSt) : TransportSt × Option CErr :=
  if s.closed then (s, none)
  else ({ closed := true, doneChClosed := true, stdinClosed := true,
          procKilled := true }, none)

/-- Observable state of `QueryHandler` touched by `Close`
(part_011). -/
structure QHSt where
  closed : Bool := false
  doneChClosed : Bool := false
  deriving DecidableEq

/-- Model of `QueryHandler.Close` (part_011): guarded by the `closed`
flag. -/
def qhClose (s : QHSt) : QHSt × Option CErr :=
  if s.closed then (s, none)
  else ({ closed := true, doneChClosed := true }, none)

/-- Observable state of `Client` touched by `Close` (`client.go`). -/
structure ClientCloseSt where
  connected : Bool := false
  qh : QHSt := {}
  tr : TransportSt := {}
  deriving DecidableEq

/-- Model of `Client.Close` (`client.go`): guarded by the `connected`
flag; it closes the query handler and then the transport. -/
def clientClose (s : ClientCloseSt) : ClientCloseSt × Option CErr :=
  if s.connected then
    let q1 := (qhClose s.qh).1
    let (t1, e) := subprocessClose s.tr
    ({ connected := false, qh := q1, tr := t1 }, e)
  else (s, none)

/-- Observable state of draft A `Query` touched by `Close`
(`query.go`). -/
structure QStA where
  canceled : Bool := false
  msgChClosed : Bool := false
  errChClosed : Bool := false
  deriving DecidableEq

/-- Model of `Query.Close` (`query.go`): it unconditionally runs
`close(q.msgCh)` and `close(q.errCh)`; the Go builtin `close` panics on
an already-closed channel, modelled by the error case. -/
def queryCloseA (s : QStA) : Except String QStA :=
  let s1 := { s with canceled := true }
  if s1.msgChClosed then .error "close of closed channel"
  else
    let s2 := { s1 with msgChClosed := true }
    if s2.errChClosed then .error "close of closed channel"
    else .ok { s2 with errChClosed := true }

/-- Result of the call number `n + 1` when a close operation is invoked
repeatedly from a state. -/
def applyClose {σ ρ : Type} (f : σ → σ × ρ) : Nat → σ → σ × ρ
  | 0, s => f s
  | n + 1, s => applyClose f n (f s).1

/-! ## Client.Receive (C10) -/

/-- A Go channel of messages: its buffered contents and whether it has
been closed. -/
structure Chan where
  closed : Bool := false
  buf : List Msg := []

/-- Draining a channel with `for msg := range ch`: terminates (with the
buffered messages) exactly when the channel is closed. -/
def drainChan (c : Chan) : Option (List Msg) :=
  if c.closed then some c.buf else none

/-- Client state consulted by `Receive` (`client.go`): the connection
flag and the query handler (`none` = nil), holding its message
channel. -/
structure ClientRecvSt where
  connected : Bool := false
  query : Option Chan := none

/-- Model of `Client.Receive` (`client.go`): when the client is not
connected or the query handler is nil, a fresh message channel is
created, closed and returned (never a nil channel); otherwise the query
handler channel is returned. -/
def clientReceive (s : ClientRecvSt) : Chan :=
  if (!s.connected) || s.query.isNone then { closed := true, buf := [] }
  else s.query.getD {}

/-! ## Stream (part_004) -/

/-- Stream state (part_004 `Stream`): the cursor, the error, the done
flag, the accumulated assistant content and the terminal result. -/
structure StreamS where
  current : Option Msg := none
  err : Option CErr := none
  done : Bool := false
  acc : List ContentBlock := []
  result : Option ResultRec := none

/-- One wake event of the select inside `Stream.Next` (part_004):
context cancellation, a value from the error channel (possibly nil), a
message, or the message channel closing. -/
inductive StrEv where
  | ctxDone
  | errRecv (e : Option CErr)
  | msgRecv (m : Msg)
  | chClosed

/-- Model of `Stream.accumulate` (part_004): only assistant messages
extend the accumulated content. -/
def streamAccum (acc : List ContentBlock) : Msg → List ContentBlock
  | .assistant content _ _ _ => acc ++ content
  | _ => acc

/-- Model of one `Stream.Next` call (part_004) when the stream is not
done: the returned message is the delivered one (`none` when `Next`
returned false).  A nil error from the error channel falls through the
select and returns false without any state change. -/
def streamStep (s : StreamS) : StrEv → Option Msg × StreamS
  | .ctxDone => (none, { s with err := some .ctxCanceled, done := true })
  | .errRecv none => (none, s)
  | .errRecv (some e) => (none, { s with err := some e, done := true })
  | .chClosed => (none, { s with done := true })
  | .msgRecv m =>
    let s1 := { s with current := some m, acc := streamAccum s.acc m }
    match m with
    | .result r => (some m, { s1 with result := some r, done := true })
    | _ => (some m, s1)

/-- Repeated `Next` calls over a schedule of wake events: once the
stream is done every further call returns false immediately and
consumes nothing. -/
def streamRun (s : StreamS) : List StrEv → List Msg × StreamS
  | [] => ([], s)
  | ev :: rest =>
    if s.done then ([], s)
    else
      let (d, s1) := streamStep s ev
      let (ds, s2) := streamRun s1 rest
      (d.toList ++ ds, s2)

/-- The messages received on the message channel, in order. -/
def msgsOf (evs : List StrEv) : List Msg :=
  evs.filterMap (fun ev => match ev with | .msgRecv m => some m | _ => none)

/-! ## Helper definitions for the stated properties -/

/-- The `request_id` echoed inside a control-response envelope. -/
def respReqId (j : Json) : Option Json :=
  (j.lookup "response").bind (fun r => r.lookup "request_id")

/-- The `subtype` of a control-response envelope. -/
def respSubtype (j : Json) : Option Json :=
  (j.lookup "response").bind (fun r => r.lookup "subtype")

/-- The inner payload of a control-response envelope. -/
def respPayload (j : Json) : Option Json :=
  (j.lookup "response").bind (fun r => r.lookup "response")

/-- Key list of a JSON object. -/
def Json.keys : Json → List String
  | .obj fields => fields.map Prod.fst
  | _ => []

/-- A control-request frame carrying an inner request with the given
subtype (concrete counterexample input shape). -/
def mkControlFrame (id subtype : String) : Json :=
  .obj [("type", .str "control_request"),
        ("request_id", .str id),
        ("request", .obj [("subtype", .str subtype)])]

/-- A matcher that lets the part_011 hook loop continue: it does not
match the tool, or its callback returns a nil output, or a non-nil
output with `Continue == true`. -/
def matcherPasses (input : HookInputM) (m : HookMatcherM) : Prop :=
  (m.toolName ≠ "*" ∧ m.toolName ≠ input.toolName) ∨
  m.callback input = .ok none ∨
  (∃ o, m.callback input = .ok (some o) ∧ o.cont = true)

/-- Draft A environment for the concrete hook-error run: one
`PreToolUse` matcher on all tools whose callback fails with `boom`. -/
def hookErrEnvA : EnvA :=
  { hooks := [("PreToolUse",
               [{ toolName := "*", callback := fun _ => .error "boom" }])] }

/-- Concrete inbound `hook_callback` inner request for the hook-error
run. -/
def hookErrReqA : Json :=
  .obj [("subtype", .str "hook_callback"),
        ("callback_id", .str "PreToolUse_callback"),
        ("input", .obj [("hook_event_name", .str "PreToolUse"),
                        ("tool_name", .str "Bash")])]

/-! ## Theorems -/

/-- Claim C9: for every raw content block whose type field is not one
of text, thinking, tool_use, tool_result or image, parsing yields a
text block whose text encodes the unknown type, and parsing never
returns an error for such a block. -/
theorem c9_unknown_block_total (raw : RawContentBlock)
    (h : raw.type ∉ (["text", "thinking", "tool_use", "tool_result", "image"] : List String)) :
    parseContentBlock raw =
      Except.ok (ContentBlock.text ("[unknown block type: " ++ raw.type ++ "]")) := by
  simp only [List.mem_cons, List.not_mem_nil, or_false, not_or] at h
  obtain ⟨h1, h2, h3, h4, h5⟩ := h
  simp [parseContentBlock, h1, h2, h3, h4, h5]

/-- Claim C9 witness at the concrete unknown block type `banana`. -/
theorem c9_unknown_block_total_witness :
    ("banana" ∉ (["text", "thinking", "tool_use", "tool_result", "image"] : List String)) ∧
    parseContentBlock { type := "banana" } =
      Except.ok (ContentBlock.text ("[unknown block type: " ++ "banana" ++ "]")) :=
  ⟨by decide, c9_unknown_block_total { type := "banana" } (by decide)⟩

/-- Claim C10: Receive on a client that is not connected or whose
query handler is nil returns an already-closed, empty message channel
(never a nil one), so iterating over it terminates immediately with no
messages. -/
theorem c10_receive_closed (s : ClientRecvSt)
    (h : s.connected = false ∨ s.query = none) :
    clientReceive s = { closed := true, buf := [] } ∧
    drainChan (clientReceive s) = some [] := by
  have hc : ((!s.connected) || s.query.isNone) = true := by
    rcases h with h | h <;> simp [h]
  refine ⟨?_, ?_⟩ <;> simp [clientReceive, hc, drainChan]

/-- Claim C10 witness on the freshly built (disconnected) client. -/
theorem c10_receive_closed_witness :
    clientReceive {} = { closed := true, buf := [] } ∧
    drainChan (clientReceive {}) = some [] :=
  c10_receive_closed {} (Or.inl rfl)

/-- Claim C6 (amended): the prompt frame written by the QueryHandler
variant — the one the Client facade drives — is exactly the object
`type: user, message: (role: user, content: the prompt string),
parent_tool_use_id: null, session_id: null`, with the content a plain
string and both null fields present; the `Query` draft of `query.go`
instead writes the content as a one-element array of a text block and
omits both null fields. -/
theorem c6_prompt_frame (p : String) :
    qhSendPromptFrame p =
      Json.obj [("type", .str "user"),
                ("message", .obj [("role", .str "user"), ("content", .str p)]),
                ("parent_tool_use_id", .null),
                ("session_id", .null)] ∧
    (qhSendPromptFrame p).keys = ["type", "message", "parent_tool_use_id", "session_id"] ∧
    ((qhSendPromptFrame p).lookup "message").bind (fun m => m.lookup "content") =
      some (.str p) ∧
    ((qhSendPromptFrame p).lookup "message").bind (fun m => m.lookup "role") =
      some (.str "user") ∧
    (qhSendPromptFrame p).lookup "parent_tool_use_id" = some .null ∧
    (qhSendPromptFrame p).lookup "session_id" = some .null ∧
    ((querySendPromptFrame p).lookup "message").bind (fun m => m.lookup "content") =
      some (.arr [.obj [("type", .str "text"), ("text", .str p)]]) ∧
    (querySendPromptFrame p).keys = ["type", "message"] := by
  refine ⟨rfl, rfl, ?_, ?_, ?_, ?_, ?_, rfl⟩ <;> rfl

/-- Claim C6 counterexample: at the concrete prompt `hi` the `Query`
draft frame of `query.go` has no `parent_tool_use_id` and no
`session_id` field, and carries the content as an array of one text
block instead of the plain string the claim requires. -/
theorem c6_query_frame_cex :
    (querySendPromptFrame "hi").lookup "parent_tool_use_id" = none ∧
    (querySendPromptFrame "hi").lookup "session_id" = none ∧
    ((querySendPromptFrame "hi").lookup "message").bind (fun m => m.lookup "content") =
      some (.arr [.obj [("type", .str "text"), ("text", .str "hi")]]) := by
  refine ⟨rfl, rfl, rfl⟩

/-- Claim C3: when a permission decider is configured and returns the
Deny(message, interrupt) result, the control response reports the tool
as not allowed, carries the message and the interrupt flag, and is
never an allow response.  The final conjuncts record the Deny
constructors and the draft A `ToJSON` rendering, whose behavior is
`deny`. -/
theorem c3_deny_never_allows (opts : OptionsB) (cb : PermReq → PermissionResultB)
    (req : CanUseToolReq) (m : String) (i : Bool)
    (hopts : opts.permissionCallback = some cb)
    (hcb : cb { toolName := req.toolName, input := req.input,
                suggestions := req.suggestions } = .deny m i) :
    qhHandleCanUseTool opts req =
      { allowed := false, reason := m, updatedInput := none, interrupt := i } ∧
    (qhHandleCanUseTool opts req).allowed = false ∧
    DenyB m = PermissionResultB.deny m false ∧
    DenyAndInterruptB m = PermissionResultB.deny m true ∧
    permAToJson (.deny m i) =
      .obj [("behavior", .str "deny"), ("message", .str m), ("interrupt", .bool i)] ∧
    (permAToJson (.deny m i)).lookup "behavior" = some (.str "deny") := by
  have h : qhHandleCanUseTool opts req =
      { allowed := false, reason := m, updatedInput := none, interrupt := i } := by
    simp [qhHandleCanUseTool, hopts, hcb]
  exact ⟨h, by rw [h], rfl, rfl, rfl, rfl⟩

/-- Claim C3 witness: a concrete decider denying tool `Bash` with
message `no` and the interrupt flag set. -/
theorem c3_deny_never_allows_witness :
    qhHandleCanUseTool
        { permissionCallback := some (fun _ => PermissionResultB.deny "no" true) }
        { toolName := "Bash" } =
      { allowed := false, reason := "no", updatedInput := none, interrupt := true } :=
  (c3_deny_never_allows _ (fun _ => PermissionResultB.deny "no" true)
    { toolName := "Bash" } "no" true rfl rfl).1

/-- The second close of the subprocess transport is a no-op. -/
theorem subprocessClose_fix (s : TransportSt) :
    subprocessClose (subprocessClose s).1 = ((subprocessClose s).1, none) := by
  by_cases h : s.closed <;> simp [subprocessClose, h]

/-- Every subprocess close returns nil. -/
theorem subprocessClose_res (s : TransportSt) : (subprocessClose s).2 = none := by
  by_cases h : s.closed <;> simp [subprocessClose, h]

/-- The second close of the query handler is a no-op. -/
theorem qhClose_fix (s : QHSt) :
    qhClose (qhClose s).1 = ((qhClose s).1, none) := by
  by_cases h : s.closed <;> simp [qhClose, h]

/-- Every query-handler close returns nil. -/
theorem qhClose_res (s : QHSt) : (qhClose s).2 = none := by
  by_cases h : s.closed <;> simp [qhClose, h]

/-- The second close of the client is a no-op. -/
theorem clientClose_fix (s : ClientCloseSt) :
    clientClose (clientClose s).1 = ((clientClose s).1, none) := by
  by_cases h : s.connected <;>
    simp [clientClose, h, subprocessClose_res]

/-- Every client close returns nil. -/
theorem clientClose_res (s : ClientCloseSt) : (clientClose s).2 = none := by
  by_cases h : s.connected <;> simp [clientClose, h, subprocessClose_res]

/-- Iterating a close that always returns `r0` and is a no-op after its
first call: call number `n + 1` lands in the one-call state and
returns `r0`. -/
theorem applyClose_eq {σ ρ : Type} (f : σ → σ × ρ) (r0 : ρ)
    (hres : ∀ s, (f s).2 = r0) (hfix : ∀ s, f (f s).1 = ((f s).1, r0)) :
    ∀ (n : Nat) (s : σ), applyClose f n s = ((f s).1, r0) := by
  intro n
  induction n with
  | zero => intro s; exact Prod.ext rfl (hres s)
  | succ n ih =>
    intro s
    have hstep : applyClose f (n + 1) s = applyClose f n (f s).1 := rfl
    rw [hstep, ih (f s).1]
    have h1 : (f (f s).1).1 = (f s).1 := by rw [hfix s]
    rw [h1]

/-- Claim C8 (amended): Close is idempotent for the subprocess
transport, the query handler and the client: calling Close N >= 1
times lands in the same state as calling it once and every call
(second and later calls included) returns nil without failing or
panicking.  The `Query.Close` of the `query.go` draft is the
exception: its second call panics (see the counterexample). -/
theorem c8_close_idempotent :
    (∀ (n : Nat) (s : TransportSt),
      applyClose subprocessClose n s = ((subprocessClose s).1, none)) ∧
    (∀ (n : Nat) (s : QHSt), applyClose qhClose n s = ((qhClose s).1, none)) ∧
    (∀ (n : Nat) (s : ClientCloseSt),
      applyClose clientClose n s = ((clientClose s).1, none)) :=
  ⟨applyClose_eq subprocessClose none subprocessClose_res subprocessClose_fix,
   applyClose_eq qhClose none qhClose_res qhClose_fix,
   applyClose_eq clientClose none clientClose_res clientClose_fix⟩

/-- Claim C8 counterexample: `Query.Close` of the `query.go` draft
closes its message and error channels unconditionally, so the first
call succeeds but the second call panics with close of closed
channel — it is not idempotent. -/
theorem c8_queryClose_cex :
    queryCloseA {} =
      .ok { canceled := true, msgChClosed := true, errChClosed := true } ∧
    queryCloseA { canceled := true, msgChClosed := true, errChClosed := true } =
      .error "close of closed channel" := ⟨rfl, rfl⟩

/-- Claim C5 (amended): on the Client/QueryHandler path, exactly one
initialize control-request is written after transport start; the
connection completes (`connected = true`) only when the matching
control response arrives; when the 30-second timer fires first the
handshake fails with the protocol error `initialization timeout`; and a
prompt sent before the connection completed is rejected with
`ErrNotConnected`.  The `Query.Initialize` draft in `query.go` does not
wait at all (see the counterexample). -/
theorem c5_init_handshake (opts : OptionsB) (nonce : Nat) (wake : InitWake)
    (s : ClientSt) (p : String) (hs : s.connected = false) :
    (qhInitRun opts nonce wake).1 = [qhInitFrame opts nonce] ∧
    (qhInitFrame opts nonce).lookup "type" = some (.str "control_request") ∧
    ((qhInitFrame opts nonce).lookup "request").bind (fun r => r.lookup "subtype") =
      some (.str "initialize") ∧
    ((clientConnect s (.ok ()) opts nonce wake).1.connected = true ↔
      wake = .gotResponse) ∧
    (wake = .timedOut →
      (clientConnect s (.ok ()) opts nonce wake).2.2 =
        .error (.protocolErr "initialization timeout")) ∧
    clientSend s p = .error .notConnected := by
  refine ⟨rfl, rfl, rfl, ?_, ?_, ?_⟩
  · cases wake <;> simp [clientConnect, hs, qhInitRun]
  · intro hw; subst hw; simp [clientConnect, hs, qhInitRun]
  · simp [clientSend, hs]

/-- Claim C5 witness: with default options, the timeout wake produces
the protocol error, the response wake connects, and a prompt on the
fresh client is rejected. -/
theorem c5_init_handshake_witness :
    (clientConnect {} (.ok ()) {} 0 .timedOut).2.2 =
      .error (.protocolErr "initialization timeout") ∧
    ((clientConnect {} (.ok ()) {} 0 .gotResponse).1.connected = true) ∧
    clientSend {} "hello" = .error .notConnected := by
  have ht := c5_init_handshake {} 0 .timedOut {} "hello" rfl
  have hr := c5_init_handshake {} 0 .gotResponse {} "hello" rfl
  exact ⟨ht.2.2.2.2.1 rfl, hr.2.2.2.1.mpr rfl, ht.2.2.2.2.2⟩

/-- Claim C5 counterexample: `Query.Initialize` of the `query.go` draft
returns success immediately after writing the request — the model takes
no wake event because the code never waits for a control response and
has no 30-second timer; the frame it writes does not even carry a
request id.  Initialization there completes with zero inbound control
responses, falsifying the claim for that draft. -/
theorem c5_queryInit_cex :
    queryInitRun {} {} =
      ({ initRequested := true }, [queryInitFrame {}], .ok ()) ∧
    (queryInitFrame {}).lookup "request_id" = none := ⟨rfl, rfl⟩

/-- A success envelope echoes its request id. -/
theorem respReqId_success (id : String) (p : Json) :
    respReqId (successResponse id p) = some (.str id) := rfl

/-- An error envelope echoes its request id. -/
theorem respReqId_error (id : String) (e : String) :
    respReqId (errorResponse id e) = some (.str id) := rfl

/-- A handler result turns into exactly one response frame (success or
error), echoing the request id. -/
theorem respWrites_one (id : String) (r : Except String Json) :
    ∃ w, respWrites id r = [w] ∧ respReqId w = some (.str id) := by
  cases r with
  | ok p => exact ⟨_, rfl, respReqId_success id p⟩
  | error e => exact ⟨_, rfl, respReqId_error id e⟩

/-- Draft A (`Query.handleControlRequest`): every decoded inbound
control request — any subtype, failing handlers and unrecognised
subtypes included — produces exactly one response frame echoing the
request id. -/
theorem queryHCR_one (env : EnvA) (id : String) (request : Option Json) :
    ∃ w, queryHandleControlRequest env id request = [w] ∧
      respReqId w = some (.str id) := by
  unfold queryHandleControlRequest
  cases request with
  | none => exact ⟨_, rfl, respReqId_error id _⟩
  | some req =>
    cases hsub : subtypeOf (some req) with
    | error e => simp only [hsub]; exact ⟨_, rfl, respReqId_error id _⟩
    | ok st =>
      simp only [hsub]
      split_ifs with h1 h2 h3 h4
      · exact respWrites_one id _
      · exact respWrites_one id _
      · exact respWrites_one id _
      · exact ⟨_, rfl, respReqId_success id _⟩
      · exact ⟨_, rfl, respReqId_error id _⟩

/-- Claim C1 (amended): the `Query` dispatcher of `query.go` writes
exactly one control response, echoing the inbound request id, for every
inbound control request — every subtype, failing handlers and
unrecognised subtypes included.  The `QueryHandler` dispatcher of
part_011 does so exactly when the inner request parses to a recognised
subtype; when the parse fails or the subtype is unrecognised it writes
no response at all and emits the error on the error channel (see the
counterexample). -/
theorem c1_control_response_echo (env : EnvA) (opts : OptionsB) (id : String)
    (request : Option Json) :
    (∃ w, queryHandleControlRequest env id request = [w] ∧
      respReqId w = some (.str id)) ∧
    (∀ inner, parseControlRequestB request = .ok inner →
      (qhHandleControlRequest opts id request).writes =
        [qhControlRespEnvelope id (qhInnerResponse opts inner)] ∧
      respReqId (qhControlRespEnvelope id (qhInnerResponse opts inner)) =
        some (.str id)) ∧
    (∀ e, parseControlRequestB request = .error e →
      (qhHandleControlRequest opts id request).writes = [] ∧
      (qhHandleControlRequest opts id request).errs = [e]) := by
  refine ⟨queryHCR_one env id request, ?_, ?_⟩
  · intro inner hin
    exact ⟨by simp [qhHandleControlRequest, hin], rfl⟩
  · intro e he
    exact ⟨by simp [qhHandleControlRequest, he], by simp [qhHandleControlRequest, he]⟩

/-- Claim C1 witness: a concrete `can_use_tool` request with id `r9`
produces, in both dispatcher variants, exactly one response frame
carrying that id. -/
theorem c1_control_response_echo_witness :
    queryHandleControlRequest {} "r9" (some (.obj [("subtype", .str "can_use_tool")])) =
      [successResponse "r9" (.obj [("behavior", .str "allow")])] ∧
    (qhHandleControlRequest {} "r9"
        (some (.obj [("subtype", .str "can_use_tool")]))).writes =
      [qhControlRespEnvelope "r9" (canUseRespJson { allowed := true })] ∧
    respReqId (qhControlRespEnvelope "r9" (canUseRespJson { allowed := true })) =
      some (.str "r9") := by
  have h := c1_control_response_echo {} {} "r9"
    (some (.obj [("subtype", .str "can_use_tool")]))
  have h2 := h.2.1 (.canUse { toolName := "", input := none, suggestions := [] }) rfl
  exact ⟨rfl, h2.1, h2.2⟩

/-- Claim C1 counterexample: on the concrete frame with request id
`r1` and unrecognised subtype `bogus`, the part_011 dispatcher writes
zero control responses (the claim requires exactly one); the protocol
error goes to the error channel instead. -/
theorem c1_qh_unknown_no_response_cex :
    (qhHandleControlRequest {} "r1" (some (.obj [("subtype", .str "bogus")]))).writes
      = [] ∧
    (qhHandleControlRequest {} "r1" (some (.obj [("subtype", .str "bogus")]))).errs =
      [.protocolErr ("unknown request subtype: " ++ "bogus")] := ⟨rfl, rfl⟩

/-- Draft A step on an unrecognised-subtype control request: one error
envelope carrying the request id, router state unchanged. -/
theorem queryHandleMessage_unknown (env : EnvA) (st : RouterState) (id s : String)
    (h1 : s ≠ "can_use_tool") (h2 : s ≠ "hook_callback")
    (h3 : s ≠ "mcp_message") (h4 : s ≠ "initialize") :
    queryHandleMessage env st (mkControlFrame id s) =
      (st, { writes := [errorResponse id ("unknown control request subtype: " ++ s)] }) := by
  have hreq : queryHandleControlRequest env id (some (.obj [("subtype", .str s)])) =
      [errorResponse id ("unknown control request subtype: " ++ s)] := by
    unfold queryHandleControlRequest
    have hsub : subtypeOf (some (.obj [("subtype", .str s)])) = .ok s := rfl
    simp only [hsub]
    simp [h1, h2, h3, h4]
  have henv : decodeControlEnvelope (mkControlFrame id s) =
      .ok (id, some (.obj [("subtype", .str s)])) := rfl
  have hctl : IsControlRequest (mkControlFrame id s) = true := rfl
  simp [queryHandleMessage, hctl, henv, hreq]

/-- Draft B step on an unrecognised-subtype control request: no frame
written, one protocol error emitted. -/
theorem qhHandleFrame_unknown (opts : OptionsB) (id s : String)
    (h1 : s ≠ "can_use_tool") (h2 : s ≠ "hook_callback")
    (h3 : s ≠ "mcp_message") (h4 : s ≠ "initialize") :
    qhHandleFrame opts (mkControlFrame id s) =
      { errs := [.protocolErr ("unknown request subtype: " ++ s)] } := by
  have hparse : parseControlRequestB (some (.obj [("subtype", .str s)])) =
      .error (.protocolErr ("unknown request subtype: " ++ s)) := by
    have hs : getStr (Json.obj [("subtype", Json.str s)]) "subtype" =
        Except.ok s := rfl
    unfold parseControlRequestB
    simp [hs, h1, h2, h3, h4, Json.isStructLike]
  have hstep : qhHandleFrame opts (mkControlFrame id s) =
      { writes := (qhHandleControlRequest opts id
          (some (.obj [("subtype", .str s)]))).writes,
        msgs := [],
        errs := (qhHandleControlRequest opts id
          (some (.obj [("subtype", .str s)]))).errs } := rfl
  have hhcr : qhHandleControlRequest opts id (some (.obj [("subtype", .str s)])) =
      { writes := [], errs := [.protocolErr ("unknown request subtype: " ++ s)] } := by
    unfold qhHandleControlRequest
    rw [hparse]
  rw [hstep, hhcr]

/-- Claim C2 (amended): on an inbound control request whose subtype is
none of the four recognised ones, the `Query` router of `query.go`
writes one error envelope carrying that request id and keeps processing
the remaining frames exactly as it would without the unknown request;
the `QueryHandler` router of part_011 also keeps processing but writes
no response at all — it only emits a protocol error on its error
channel (see the counterexample).  Neither router terminates the
session. -/
theorem c2_unknown_subtype (env : EnvA) (st : RouterState) (opts : OptionsB)
    (id s : String) (rest : List Json)
    (h1 : s ≠ "can_use_tool") (h2 : s ≠ "hook_callback")
    (h3 : s ≠ "mcp_message") (h4 : s ≠ "initialize") :
    (queryRouterRun env st (mkControlFrame id s :: rest)).1 =
      (queryRouterRun env st rest).1 ∧
    (queryRouterRun env st (mkControlFrame id s :: rest)).2.writes =
      errorResponse id ("unknown control request subtype: " ++ s) ::
        (queryRouterRun env st rest).2.writes ∧
    (queryRouterRun env st (mkControlFrame id s :: rest)).2.msgs =
      (queryRouterRun env st rest).2.msgs ∧
    (queryRouterRun env st (mkControlFrame id s :: rest)).2.errs =
      (queryRouterRun env st rest).2.errs ∧
    (qhRouterRun opts (mkControlFrame id s :: rest)).writes =
      (qhRouterRun opts rest).writes ∧
    (qhRouterRun opts (mkControlFrame id s :: rest)).msgs =
      (qhRouterRun opts rest).msgs ∧
    (qhRouterRun opts (mkControlFrame id s :: rest)).errs =
      CErr.protocolErr ("unknown request subtype: " ++ s) ::
        (qhRouterRun opts rest).errs := by
  have hq := queryHandleMessage_unknown env st id s h1 h2 h3 h4
  have hb := qhHandleFrame_unknown opts id s h1 h2 h3 h4
  refine ⟨?_, ?_, ?_, ?_, ?_, ?_, ?_⟩ <;>
    simp [queryRouterRun, qhRouterRun, hq, hb, RouterOut.append]

/-- Claim C2 witness: the concrete unknown subtype `mystery` with
request id `r2` and no further frames. -/
theorem c2_unknown_subtype_witness :
    (queryRouterRun {} {} [mkControlFrame "r2" "mystery"]).2.writes =
      [errorResponse "r2" ("unknown control request subtype: " ++ "mystery")] ∧
    (qhRouterRun {} [mkControlFrame "r2" "mystery"]).writes = [] ∧
    (qhRouterRun {} [mkControlFrame "r2" "mystery"]).errs =
      [CErr.protocolErr ("unknown request subtype: " ++ "mystery")] := by
  have h := c2_unknown_subtype {} {} {} "r2" "mystery" []
    (by decide) (by decide) (by decide) (by decide)
  exact ⟨h.2.1, h.2.2.2.2.1, h.2.2.2.2.2.2⟩

/-- Claim C2 counterexample: on the concrete frame with request id
`r5` and unknown subtype `mystery`, the part_011 router writes no
control response at all — the claim requires an error envelope for that
request id.  (The session does continue: only an error-channel entry is
produced.) -/
theorem c2_qh_no_error_envelope_cex :
    (qhRouterRun {} [mkControlFrame "r5" "mystery"]).writes = [] ∧
    (qhRouterRun {} [mkControlFrame "r5" "mystery"]).errs =
      [.protocolErr ("unknown request subtype: " ++ "mystery")] := ⟨rfl, rfl⟩

/-- The part_011 hook loop skips over a prefix of matchers that do not
match or whose callback lets execution continue. -/
theorem qhRunHookMatchers_pass (input : HookInputM) (pre l : List HookMatcherM)
    (hpre : ∀ m ∈ pre, matcherPasses input m) :
    qhRunHookMatchers input (pre ++ l) = qhRunHookMatchers input l := by
  induction pre with
  | nil => rfl
  | cons m pre ih =>
    have hm := hpre m (List.mem_cons_self m pre)
    have hrest : ∀ m2 ∈ pre, matcherPasses input m2 :=
      fun m2 hm2 => hpre m2 (List.mem_cons_of_mem m hm2)
    rcases hm with ⟨hna, hnb⟩ | hok | ⟨o, hok, hcont⟩
    · have hcond : (m.toolName != "*" && m.toolName != input.toolName) = true := by
        simp [hna, hnb]
      simp [qhRunHookMatchers, hcond, ih hrest]
    · by_cases hcond : (m.toolName != "*" && m.toolName != input.toolName) = true
      · simp [qhRunHookMatchers, hcond, ih hrest]
      · simp [qhRunHookMatchers, hcond, hok, ih hrest]
    · by_cases hcond : (m.toolName != "*" && m.toolName != input.toolName) = true
      · simp [qhRunHookMatchers, hcond, ih hrest]
      · simp [qhRunHookMatchers, hcond, hok, hcont, ih hrest]

/-- Claim C4 (amended): in the part_011 `QueryHandler`, when the hook
matcher loop reaches a matching callback that returns a non-nil error
(the earlier matchers not matching or continuing), the control response
is the block response built from that error: continue false, decision
block, reason equal to the error message — rendered on the wire as
`continue: false, decision: block, reason: message`.  The `query.go`
draft instead aborts the handler and answers with a control error
envelope wrapping the message (see the counterexample). -/
theorem c4_hook_error_blocks (opts : OptionsB) (req : HookCallbackReq)
    (pre post : List HookMatcherM) (m : HookMatcherM) (e ev : String)
    (hev : qhHookEvent req = ev)
    (hl : (opts.hooks.lookup ev).getD [] = pre ++ m :: post)
    (hpre : ∀ m2 ∈ pre, matcherPasses (req.input.getD {}) m2)
    (hm : m.toolName = "*" ∨ m.toolName = (req.input.getD {}).toolName)
    (herr : m.callback (req.input.getD {}) = .error e)
    (hne : e ≠ "") :
    qhHandleHookCallback opts req =
      { cont := false, decision := "block", reason := e,
        stopReason := "", modifiedInput := none } ∧
    hookRespJson (qhHandleHookCallback opts req) =
      .obj [("continue", .bool false), ("decision", .str "block"),
            ("reason", .str e)] := by
  have hrun : qhRunHookMatchers (req.input.getD {}) (pre ++ m :: post) =
      { cont := false, decision := "block", reason := e,
        stopReason := "", modifiedInput := none } := by
    rw [qhRunHookMatchers_pass _ pre _ hpre]
    have hcond : (m.toolName != "*" && m.toolName != (req.input.getD {}).toolName)
        = false := by
      rcases hm with hm | hm <;> simp [hm]
    simp [qhRunHookMatchers, hcond, herr]
  have hmain : qhHandleHookCallback opts req =
      { cont := false, decision := "block", reason := e,
        stopReason := "", modifiedInput := none } := by
    unfold qhHandleHookCallback
    rw [hev, hl]
    revert hrun
    cases pre with
    | nil => intro hrun; exact hrun
    | cons a pre2 => intro hrun; exact hrun
  refine ⟨hmain, ?_⟩
  rw [hmain]
  simp [hookRespJson, hne]

/-- Claim C4 witness: one wildcard `PreToolUse` matcher whose callback
fails with `boom` on tool `Bash`. -/
theorem c4_hook_error_blocks_witness :
    qhHandleHookCallback
        { hooks := [("PreToolUse",
            [{ toolName := "*", callback := fun _ => .error "boom" }])] }
        { callbackId := "PreToolUse_callback", event := "PreToolUse",
          input := some { toolName := "Bash" } } =
      { cont := false, decision := "block", reason := "boom",
        stopReason := "", modifiedInput := none } :=
  (c4_hook_error_blocks
    { hooks := [("PreToolUse",
        [{ toolName := "*", callback := fun _ => .error "boom" }])] }
    { callbackId := "PreToolUse_callback", event := "PreToolUse",
      input := some { toolName := "Bash" } }
    [] [] { toolName := "*", callback := fun _ => .error "boom" }
    "boom" "PreToolUse" rfl rfl (by simp) (Or.inl rfl) rfl (by decide)).1

/-- Claim C4 counterexample: on the concrete `hook_callback` request
`r1` whose matching callback fails with `boom`, the `query.go` draft
writes a control error envelope whose error string wraps the message —
its subtype is `error`, it carries no `decision: block` and no response
payload at all, so it is not the block response the claim requires. -/
theorem c4_query_hook_error_cex :
    queryHandleControlRequest hookErrEnvA "r1" (some hookErrReqA) =
      [errorResponse "r1" ("hook callback error: " ++ "boom")] ∧
    respSubtype (errorResponse "r1" ("hook callback error: " ++ "boom")) =
      some (.str "error") ∧
    ((errorResponse "r1" ("hook callback error: " ++ "boom")).lookup "response").bind
      (fun r => r.lookup "decision") = none ∧
    respPayload (errorResponse "r1" ("hook callback error: " ++ "boom")) = none :=
  ⟨rfl, rfl, rfl, rfl⟩

/-- Once the stream is done, further Next calls deliver nothing and
leave the state untouched. -/
theorem streamRun_done (s : StreamS) (evs : List StrEv) (h : s.done = true) :
    streamRun s evs = ([], s) := by
  cases evs with
  | nil => rfl
  | cons e rest => simp [streamRun, h]

/-- Unfolding one Next call on a stream that is not done. -/
theorem streamRun_cons_notdone (s : StreamS) (ev : StrEv) (rest : List StrEv)
    (hd : s.done = false) :
    streamRun s (ev :: rest) =
      ((streamStep s ev).1.toList ++ (streamRun (streamStep s ev).2 rest).1,
       (streamRun (streamStep s ev).2 rest).2) := by
  simp [streamRun, hd]

/-- Context cancellation step. -/
theorem streamStep_ctxDone (s : StreamS) :
    streamStep s .ctxDone =
      (none, { s with err := some CErr.ctxCanceled, done := true }) := rfl

/-- Channel-closed step. -/
theorem streamStep_chClosed (s : StreamS) :
    streamStep s .chClosed = (none, { s with done := true }) := rfl

/-- A nil error falls through without any state change. -/
theorem streamStep_errNone (s : StreamS) :
    streamStep s (.errRecv none) = (none, s) := rfl

/-- A non-nil error marks the stream done. -/
theorem streamStep_errSome (s : StreamS) (e : CErr) :
    streamStep s (.errRecv (some e)) =
      (none, { s with err := some e, done := true }) := rfl

/-- A message is a result message exactly when it is built by the
result constructor. -/
theorem isResult_iff (m : Msg) : Msg.isResult m = true ↔ ∃ r, m = .result r := by
  cases m <;> simp [Msg.isResult]

/-- A non-result message is delivered and only moves the cursor and
the accumulator. -/
theorem streamStep_nonresult (s : StreamS) (m : Msg)
    (hm : Msg.isResult m = false) :
    streamStep s (.msgRecv m) =
      (some m, { s with current := some m, acc := streamAccum s.acc m }) := by
  cases m <;> simp_all [Msg.isResult, streamStep]

/-- A result message is delivered, recorded, and marks the stream
done. -/
theorem streamStep_result (s : StreamS) (r : ResultRec) :
    streamStep s (.msgRecv (.result r)) =
      (some (Msg.result r),
       { s with
           current := some (Msg.result r),
           acc := streamAccum s.acc (Msg.result r),
           result := some r,
           done := true }) := rfl

/-- The delivered messages are a prefix of the messages received, in
order. -/
theorem streamRun_prefix (evs : List StrEv) : ∀ (s : StreamS),
    ∃ t, msgsOf evs = (streamRun s evs).1 ++ t := by
  induction evs with
  | nil => intro s; exact ⟨[], rfl⟩
  | cons ev rest ih =>
    intro s
    by_cases hd : s.done = true
    · rw [streamRun_done _ _ hd]
      exact ⟨msgsOf (ev :: rest), rfl⟩
    · have hd2 : s.done = false := by simpa using hd
      cases ev with
      | ctxDone =>
        obtain ⟨t, ht⟩ := ih (streamStep s .ctxDone).2
        refine ⟨t, ?_⟩
        rw [streamRun_cons_notdone s _ rest hd2]
        simpa [streamStep_ctxDone, msgsOf] using ht
      | chClosed =>
        obtain ⟨t, ht⟩ := ih (streamStep s .chClosed).2
        refine ⟨t, ?_⟩
        rw [streamRun_cons_notdone s _ rest hd2]
        simpa [streamStep_chClosed, msgsOf] using ht
      | errRecv e =>
        cases e with
        | none =>
          obtain ⟨t, ht⟩ := ih s
          refine ⟨t, ?_⟩
          rw [streamRun_cons_notdone s _ rest hd2, streamStep_errNone]
          simpa [msgsOf] using ht
        | some e0 =>
          obtain ⟨t, ht⟩ := ih (streamStep s (.errRecv (some e0))).2
          refine ⟨t, ?_⟩
          rw [streamRun_cons_notdone s _ rest hd2]
          simpa [streamStep_errSome, msgsOf] using ht
      | msgRecv m =>
        by_cases hm : Msg.isResult m = true
        · obtain ⟨r, rfl⟩ := (isResult_iff m).mp hm
          refine ⟨msgsOf rest, ?_⟩
          rw [streamRun_cons_notdone s _ rest hd2, streamStep_result,
              streamRun_done _ rest rfl]
          simp [msgsOf]
        · have hm2 : Msg.isResult m = false := by simpa using hm
          obtain ⟨t, ht⟩ := ih { s with current := some m, acc := streamAccum s.acc m }
          refine ⟨t, ?_⟩
          rw [streamRun_cons_notdone s _ rest hd2, streamStep_nonresult s m hm2]
          simp only [msgsOf, List.filterMap_cons] at ht ⊢
          simp [ht]

/-- Delivering a result message leaves the stream done. -/
theorem streamRun_result_done (evs : List StrEv) : ∀ (s : StreamS),
    ((streamRun s evs).1.any Msg.isResult) = true →
    (streamRun s evs).2.done = true := by
  induction evs with
  | nil => intro s h; simp [streamRun] at h
  | cons ev rest ih =>
    intro s h
    by_cases hd : s.done = true
    · rw [streamRun_done _ _ hd] at h
      simp at h
    · have hd2 : s.done = false := by simpa using hd
      rw [streamRun_cons_notdone s _ rest hd2] at h ⊢
      cases ev with
      | ctxDone =>
        rw [streamStep_ctxDone] at h ⊢
        rw [streamRun_done _ rest rfl]
      | chClosed =>
        rw [streamStep_chClosed] at h ⊢
        rw [streamRun_done _ rest rfl]
      | errRecv e =>
        cases e with
        | none =>
          rw [streamStep_errNone] at h ⊢
          exact ih s (by simpa using h)
        | some e0 =>
          rw [streamStep_errSome] at h ⊢
          rw [streamRun_done _ rest rfl]
      | msgRecv m =>
        by_cases hm : Msg.isResult m = true
        · obtain ⟨r, rfl⟩ := (isResult_iff m).mp hm
          rw [streamStep_result] at h ⊢
          rw [streamRun_done _ rest rfl]
        · have hm2 : Msg.isResult m = false := by simpa using hm
          rw [streamStep_nonresult s m hm2] at h ⊢
          simp only [Option.toList, List.any_append, List.any_cons,
            List.any_nil, hm2, Bool.false_or, Bool.or_false] at h
          exact ih _ h

/-- The delivered list splits into non-result messages followed by at
most one result message — nothing is delivered after the first
result. -/
theorem streamRun_result_last (evs : List StrEv) : ∀ (s : StreamS),
    ∃ d1 d2, (streamRun s evs).1 = d1 ++ d2 ∧
      (∀ m ∈ d1, Msg.isResult m = false) ∧
      (d2 = [] ∨ ∃ r, d2 = [Msg.result r]) := by
  induction evs with
  | nil =>
    intro s
    exact ⟨[], [], rfl, by intro m hm; simp at hm, Or.inl rfl⟩
  | cons ev rest ih =>
    intro s
    by_cases hd : s.done = true
    · rw [streamRun_done _ _ hd]
      exact ⟨[], [], rfl, by intro m hm; simp at hm, Or.inl rfl⟩
    · have hd2 : s.done = false := by simpa using hd
      rw [streamRun_cons_notdone s _ rest hd2]
      cases ev with
      | ctxDone =>
        obtain ⟨d1, d2, h1, h2, h3⟩ := ih (streamStep s .ctxDone).2
        exact ⟨d1, d2, by simpa [streamStep_ctxDone] using h1, h2, h3⟩
      | chClosed =>
        obtain ⟨d1, d2, h1, h2, h3⟩ := ih (streamStep s .chClosed).2
        exact ⟨d1, d2, by simpa [streamStep_chClosed] using h1, h2, h3⟩
      | errRecv e =>
        cases e with
        | none =>
          obtain ⟨d1, d2, h1, h2, h3⟩ := ih s
          exact ⟨d1, d2, by simpa [streamStep_errNone] using h1, h2, h3⟩
        | some e0 =>
          obtain ⟨d1, d2, h1, h2, h3⟩ := ih (streamStep s (.errRecv (some e0))).2
          exact ⟨d1, d2, by simpa [streamStep_errSome] using h1, h2, h3⟩
      | msgRecv m =>
        by_cases hm : Msg.isResult m = true
        · obtain ⟨r, rfl⟩ := (isResult_iff m).mp hm
          refine ⟨[], [Msg.result r], ?_, by intro m hm2; simp at hm2,
            Or.inr ⟨r, rfl⟩⟩
          rw [streamStep_result, streamRun_done _ rest rfl]
          rfl
        · have hm2 : Msg.isResult m = false := by simpa using hm
          obtain ⟨d1, d2, h1, h2, h3⟩ :=
            ih { s with current := some m, acc := streamAccum s.acc m }
          refine ⟨m :: d1, d2, ?_, ?_, h3⟩
          · rw [streamStep_nonresult s m hm2]
            simp [h1]
          · intro m2 hm3
            rcases List.mem_cons.mp hm3 with hm3 | hm3
            · subst hm3; exact hm2
            · exact h2 m2 hm3


/-- Claim C7: for every schedule of channel events, the stream yields
messages in the order received (a prefix of the received messages);
once done — which holds after the first result message has been
delivered, and likewise after a non-nil error — every further Next
call returns false, delivers nothing and leaves the state (hence
`Current()`) unchanged; and no message is ever delivered after the
first result message. -/
theorem c7_stream_terminal :
    (∀ (s : StreamS) (evs : List StrEv),
      ∃ t, msgsOf evs = (streamRun s evs).1 ++ t) ∧
    (∀ (s : StreamS) (evs : List StrEv), s.done = true →
      streamRun s evs = ([], s)) ∧
    (∀ (s : StreamS) (evs : List StrEv),
      ((streamRun s evs).1.any Msg.isResult) = true →
      (streamRun s evs).2.done = true) ∧
    (∀ (s : StreamS) (evs : List StrEv),
      ∃ d1 d2, (streamRun s evs).1 = d1 ++ d2 ∧
        (∀ m ∈ d1, Msg.isResult m = false) ∧
        (d2 = [] ∨ ∃ r, d2 = [Msg.result r])) ∧
    (∀ (s : StreamS) (e : CErr),
      (streamStep s (.errRecv (some e))).2.done = true ∧
      (streamStep s (.errRecv (some e))).2.err = some e) :=
  ⟨fun s evs => streamRun_prefix evs s,
   fun s evs h => streamRun_done s evs h,
   fun s evs h => streamRun_result_done evs s h,
   fun s evs => streamRun_result_last evs s,
   fun _ _ => ⟨rfl, rfl⟩⟩

/-- Claim C7 witness: a concrete schedule delivering a system message,
a result, then another message: only the first two are delivered, the
stream is then done, and a subsequent run delivers nothing and keeps
the state. -/
theorem c7_stream_terminal_witness :
    (streamRun {} [.msgRecv (.system "init" none), .msgRecv (.result {}),
        .msgRecv (.system "late" none)]).1 =
      [Msg.system "init" none, Msg.result {}] ∧
    (streamRun {} [.msgRecv (.system "init" none), .msgRecv (.result {}),
        .msgRecv (.system "late" none)]).2.done = true ∧
    streamRun (streamRun {} [.msgRecv (.system "init" none), .msgRecv (.result {}),
        .msgRecv (.system "late" none)]).2 [.msgRecv (.system "late" none)] =
      ([], (streamRun {} [.msgRecv (.system "init" none), .msgRecv (.result {}),
        .msgRecv (.system "late" none)]).2) := by
  have hdone := c7_stream_terminal.2.2.1 {}
    [.msgRecv (.system "init" none), .msgRecv (.result {}),
     .msgRecv (.system "late" none)] (by rfl)
  exact ⟨rfl, hdone, c7_stream_terminal.2.1 _ [.msgRecv (.system "late" none)] hdone⟩

end Clawde
